import Mathlib

/-!
Verification of the `cancel-blob-tx` utility (`src/main.rs`) against its
natural-language specification.

The program is a linear pipeline: load configuration from the environment
(after `dotenv()` merges an optional `.env` file), build a signer and an
HTTP provider, check connectivity (`get_block_number`), fetch the target
transaction, require it to be an EIP-4844 blob transaction, check its
receipt, double its fees, build a placeholder blob sidecar and a
replacement transaction, and submit it.

The embedding models the remote node, the key/url parsers and the sidecar
encoder as an oracle (`World`); the program is a function from the oracle
to a trace of observable effects (file access, network calls, console
output) paired with an outcome (success, error with the `anyhow` context
message, or panic).
-/

/-- 20-byte account address, modelled as a natural number. -/
abbrev Address := Nat

/-- 32-byte hash (`B256` / `TxHash`), modelled as a natural number. -/
abbrev B256 := Nat

/-- `alloy::primitives::TxKind`: a create or a call to an address. -/
inductive TxKind where
  | Create : TxKind
  | Call : Address → TxKind
deriving DecidableEq

/-- The EIP-4844 transaction body (`alloy::consensus::TxEip4844`): the
fields read by `main.rs`.  In alloy, `max_fee_per_gas`,
`max_priority_fee_per_gas` and `max_fee_per_blob_gas` are plain (required)
`u128` fields of this struct, and `to` is a plain `Address`. -/
structure Eip4844Tx where
  nonce : Nat
  gas_limit : Nat
  max_fee_per_gas : Nat
  max_priority_fee_per_gas : Nat
  «to» : Address
  blob_versioned_hashes : List B256
  max_fee_per_blob_gas : Nat
deriving DecidableEq

/-- Modelled from the spec: the `Transaction` trait accessor `nonce()` on
`TxEip4844` (library code, outside `src/`) returns the nonce field. -/
def Eip4844Tx.nonceAcc (tx : Eip4844Tx) : Nat := tx.nonce

/-- Modelled from the spec: the accessor `gas_limit()` returns the gas
limit field. -/
def Eip4844Tx.gasLimitAcc (tx : Eip4844Tx) : Nat := tx.gas_limit

/-- Modelled from the spec: the accessor `max_fee_per_gas()` returns the
max-fee field. -/
def Eip4844Tx.maxFeePerGasAcc (tx : Eip4844Tx) : Nat := tx.max_fee_per_gas

/-- Modelled from the spec: the accessor `max_priority_fee_per_gas()`
returns `Some` of the priority-fee field — the field is required for this
transaction kind, so the accessor is always present. -/
def Eip4844Tx.maxPriorityFeePerGasAcc (tx : Eip4844Tx) : Option Nat :=
  some tx.max_priority_fee_per_gas

/-- Modelled from the spec: the accessor `max_fee_per_blob_gas()` returns
`Some` of the blob-fee field — required for this transaction kind. -/
def Eip4844Tx.maxFeePerBlobGasAcc (tx : Eip4844Tx) : Option Nat :=
  some tx.max_fee_per_blob_gas

/-- Modelled from the spec: the accessor `to()` returns `Some` of the
recipient (an EIP-4844 transaction always has a call recipient). -/
def Eip4844Tx.toAcc (tx : Eip4844Tx) : Option Address := some tx.«to»

/-- The fetched transaction's envelope (`orig_tx.inner`), a tagged variant
over the supported on-chain transaction kinds. -/
inductive TxEnvelope where
  | legacy : TxEnvelope
  | eip2930 : TxEnvelope
  | eip1559 : TxEnvelope
  | eip4844 : Eip4844Tx → TxEnvelope
  | eip7702 : TxEnvelope
deriving DecidableEq

/-- `TxEnvelope::as_eip4844`: the kind-discriminant probe used at
`main.rs:53-56`. -/
def TxEnvelope.as_eip4844 : TxEnvelope → Option Eip4844Tx
  | .eip4844 tx => some tx
  | _ => none

/-- Transaction receipt: `main.rs` reads only `block_number`. -/
structure Receipt where
  block_number : Option Nat
deriving DecidableEq

/-- A built blob sidecar, recorded by the payload it was encoded from. -/
structure BlobTransactionSidecar where
  data : String
deriving DecidableEq

/-- `SidecarBuilder::<SimpleCoder>` holding the bytes passed to
`from_slice`. -/
structure SidecarBuilder where
  data : String
deriving DecidableEq

/-- `SidecarBuilder::from_slice` (`main.rs:105`). -/
def SidecarBuilder.from_slice (s : String) : SidecarBuilder := ⟨s⟩

/-- Modelled from the spec: `SidecarBuilder::build` (library code, outside
`src/`) encodes the payload into a sidecar and "can itself fail (encoding
error)"; the oracle decides success, and on success the sidecar carries
the builder's payload. -/
def SidecarBuilder.build (b : SidecarBuilder) (o : Except String Unit) :
    Except String BlobTransactionSidecar :=
  match o with
  | .error e => .error e
  | .ok _ => .ok ⟨b.data⟩

/-- A local signer (`PrivateKeySigner`), exposing its address. -/
structure PrivateKeySigner where
  address : Address
deriving DecidableEq

/-- `alloy::rpc::types::TransactionRequest`: the fields `main.rs` sets at
lines 109-119, plus representative fields left to `..Default::default()`
(in particular `max_fee_per_blob_gas`).  Every field defaults to `none`. -/
structure TransactionRequest where
  «to» : Option TxKind := none
  gas_price : Option Nat := none
  max_fee_per_gas : Option Nat := none
  max_priority_fee_per_gas : Option Nat := none
  max_fee_per_blob_gas : Option Nat := none
  gas : Option Nat := none
  value : Option Nat := none
  input : Option String := none
  nonce : Option Nat := none
  chain_id : Option Nat := none
  blob_versioned_hashes : Option (List B256) := none
  sidecar : Option BlobTransactionSidecar := none
deriving DecidableEq

/-- Observable effects of a run: file accesses, network round trips and
console output (console lines carry their data, not their format
strings). -/
inductive Effect where
  | fileRead : String → Effect
  | fileWrite : String → Effect
  | netGetBlockNumber : Effect
  | netGetTransactionByHash : B256 → Effect
  | netGetTransactionReceipt : B256 → Effect
  | netSendTransaction : TransactionRequest → Effect
  | printConnected : Nat → Effect
  | printFound : Option Address → Nat → Effect
  | printConfirmed : Nat → Effect
  | printOrigFees : Nat → Nat → Nat → Nat → Effect
  | printNewFees : Nat → Nat → Effect
  | printSending : Effect
  | printSent : B256 → Effect
deriving DecidableEq

/-- Is the effect a file access (read or write)? -/
def Effect.isFile : Effect → Bool
  | .fileRead _ => true
  | .fileWrite _ => true
  | _ => false

/-- Is the effect a network round trip? -/
def Effect.isNet : Effect → Bool
  | .netGetBlockNumber => true
  | .netGetTransactionByHash _ => true
  | .netGetTransactionReceipt _ => true
  | .netSendTransaction _ => true
  | _ => false

/-- Is the effect a transaction submission? -/
def Effect.isSend : Effect → Bool
  | .netSendTransaction _ => true
  | _ => false

/-- Number of submission calls in a trace. -/
def countSends (t : List Effect) : Nat := (t.filter Effect.isSend).length

/-- An `anyhow` error: the stage's context message plus the underlying
cause, when one is attached. -/
structure Err where
  msg : String
  cause : Option String := none
deriving DecidableEq

/-- Outcome of a run: success, an error, or a panic (a `.unwrap()` on
`None`). -/
inductive Outcome where
  | ok : Outcome
  | err : Err → Outcome
  | panicked : String → Outcome
deriving DecidableEq

/-- Does the outcome record a panic? -/
def Outcome.isPanic : Outcome → Bool
  | .panicked _ => true
  | _ => false

/-- The oracle: the post-`dotenv` process environment, the pure library
parsers, the sidecar encoder's error branch, and the remote node's
response to each round trip. -/
structure World where
  env_rpc_url : Option String
  env_private_key : Option String
  env_tx_hash : Option String
  parse_private_key : String → Option PrivateKeySigner
  parse_url : String → Except String Unit
  get_block_number : Except String Nat
  get_transaction_by_hash : Except String (Option TxEnvelope)
  get_transaction_receipt : Except String (Option Receipt)
  build_sidecar : Except String Unit
  send_transaction : TransactionRequest → Except String B256

/-- Value of one hex digit. -/
def hexDigitVal (c : Char) : Option Nat :=
  if '0' ≤ c ∧ c ≤ '9' then some (c.toNat - '0'.toNat)
  else if 'a' ≤ c ∧ c ≤ 'f' then some (c.toNat - 'a'.toNat + 10)
  else if 'A' ≤ c ∧ c ≤ 'F' then some (c.toNat - 'A'.toNat + 10)
  else none

/-- Value of a hex digit string, failing on any non-hex character. -/
def hexVal (l : List Char) : Option Nat :=
  l.foldl (fun acc c => acc.bind fun a => (hexDigitVal c).map fun d => a * 16 + d)
    (some 0)

/-- `TxHash::from_str` (`.parse()` at `main.rs:25`): an optional `0x`
prefix followed by exactly 64 hex digits. -/
def parseTxHash (s : String) : Option B256 :=
  let body : List Char :=
    match s.data with
    | '0' :: 'x' :: rest => rest
    | l => l
  if body.length = 64 then hexVal body else none

/-- The path the `dotenv()` call at `main.rs:18` attempts to read. -/
def dotenvPath : String := ".env"

/-- The fixed payload passed to `SidecarBuilder::from_slice`
(`main.rs:105`). -/
def placeholderPayload : String := "Hello, world!"

/-- The resolved configuration: the three environment values, with the
hash parsed. -/
structure Config where
  rpc_url : String
  private_key : String
  tx_hash : B256
deriving DecidableEq

/-- `main.rs:20-26`: read the three environment variables in order, each
failure carrying its own context message; parse the hash. -/
def loadConfig (w : World) : Except Err Config :=
  match w.env_rpc_url with
  | none => .error ⟨"RPC_URL environment variable not set", none⟩
  | some rpc_url =>
    match w.env_private_key with
    | none => .error ⟨"PRIVATE_KEY environment variable not set", none⟩
    | some private_key =>
      match w.env_tx_hash with
      | none => .error ⟨"TX_HASH environment variable not set", none⟩
      | some h =>
        match parseTxHash h with
        | none => .error ⟨"Invalid transaction hash format", none⟩
        | some tx_hash => .ok ⟨rpc_url, private_key, tx_hash⟩

/-- `main.rs:28-35`: parse the private key into a signer, then parse the
RPC URL (whose parse error propagates without an added context). -/
def setupSigner (w : World) (cfg : Config) : Except Err PrivateKeySigner :=
  match w.parse_private_key cfg.private_key with
  | none => .error ⟨"Invalid private key format", none⟩
  | some signer =>
    match w.parse_url cfg.rpc_url with
    | .error e => .error ⟨e, none⟩
    | .ok _ => .ok signer

/-- Gas-price display scaling (`/ 1_000_000_000`, gwei). -/
def gwei (x : Nat) : Nat := x / 1000000000

/-- `main.rs:94-95`: the fee recalculation `x * 2` on the `u128` fee
values, hence wrapping modulo `2 ^ 128`. -/
def doubleFee (x : Nat) : Nat := x * 2 % 2 ^ 128

/-- The replacement transaction built at `main.rs:109-119`: to self, zero
value, 21000 gas, the doubled fees, the original nonce, an explicitly
empty blob-hash list, the sidecar, everything else `..Default::default()`. -/
def replacementRequest (own : Address) (nonce new_max_fee new_priority_fee : Nat)
    (sc : BlobTransactionSidecar) : TransactionRequest :=
  { «to» := some (TxKind.Call own)
    value := some 0
    gas := some 21000
    max_fee_per_gas := some new_max_fee
    max_priority_fee_per_gas := some new_priority_fee
    nonce := some nonce
    blob_versioned_hashes := some []
    sidecar := some sc }

/-- `main.rs:78-127`, after the receipt check: print the original fees
(unwrapping the priority and blob fees), double the fees, print the new
fees, build the sidecar from the fixed payload, build the replacement
request and submit it. -/
def feeAndSubmitStage (w : World) (own : Address) (tx : Eip4844Tx) :
    List Effect × Outcome :=
  match Eip4844Tx.maxPriorityFeePerGasAcc tx with
  | none => ([], Outcome.panicked "called unwrap on a missing priority fee")
  | some prio =>
    match Eip4844Tx.maxFeePerBlobGasAcc tx with
    | none => ([], Outcome.panicked "called unwrap on a missing blob fee")
    | some blobFee =>
      match SidecarBuilder.build (SidecarBuilder.from_slice placeholderPayload)
          w.build_sidecar with
      | .error e =>
        ([Effect.printOrigFees (gwei (Eip4844Tx.maxFeePerGasAcc tx)) (gwei prio)
            (Eip4844Tx.gasLimitAcc tx) (gwei blobFee),
          Effect.printNewFees (gwei (doubleFee (Eip4844Tx.maxFeePerGasAcc tx)))
            (gwei (doubleFee prio))],
         Outcome.err ⟨"Failed to build blob sidecar", some e⟩)
      | .ok sc =>
        match w.send_transaction (replacementRequest own (Eip4844Tx.nonceAcc tx)
            (doubleFee (Eip4844Tx.maxFeePerGasAcc tx)) (doubleFee prio) sc) with
        | .error e =>
          ([Effect.printOrigFees (gwei (Eip4844Tx.maxFeePerGasAcc tx)) (gwei prio)
              (Eip4844Tx.gasLimitAcc tx) (gwei blobFee),
            Effect.printNewFees (gwei (doubleFee (Eip4844Tx.maxFeePerGasAcc tx)))
              (gwei (doubleFee prio)),
            Effect.printSending,
            Effect.netSendTransaction (replacementRequest own (Eip4844Tx.nonceAcc tx)
              (doubleFee (Eip4844Tx.maxFeePerGasAcc tx)) (doubleFee prio) sc)],
           Outcome.err ⟨"Failed to send replacement transaction", some e⟩)
        | .ok h =>
          ([Effect.printOrigFees (gwei (Eip4844Tx.maxFeePerGasAcc tx)) (gwei prio)
              (Eip4844Tx.gasLimitAcc tx) (gwei blobFee),
            Effect.printNewFees (gwei (doubleFee (Eip4844Tx.maxFeePerGasAcc tx)))
              (gwei (doubleFee prio)),
            Effect.printSending,
            Effect.netSendTransaction (replacementRequest own (Eip4844Tx.nonceAcc tx)
              (doubleFee (Eip4844Tx.maxFeePerGasAcc tx)) (doubleFee prio) sc),
            Effect.printSent h],
           Outcome.ok)

/-- `main.rs:64-76`: fetch the receipt; when present, print its block
number (`unwrap_or_default`) and return success; when absent, continue. -/
def receiptStage (w : World) (cfg : Config) (own : Address) (tx : Eip4844Tx) :
    List Effect × Outcome :=
  match w.get_transaction_receipt with
  | .error e =>
    ([Effect.netGetTransactionReceipt cfg.tx_hash],
     Outcome.err ⟨"Failed to check transaction receipt", some e⟩)
  | .ok (some receipt) =>
    ([Effect.netGetTransactionReceipt cfg.tx_hash,
      Effect.printConfirmed (receipt.block_number.getD 0)],
     Outcome.ok)
  | .ok none =>
    (Effect.netGetTransactionReceipt cfg.tx_hash :: (feeAndSubmitStage w own tx).1,
     (feeAndSubmitStage w own tx).2)

/-- `main.rs:44-62`: fetch the transaction; absence is a distinct
"Transaction not found" failure; a non-EIP-4844 kind is a distinct
wrong-kind failure; otherwise print the recipient and nonce and
continue. -/
def fetchStage (w : World) (cfg : Config) (own : Address) :
    List Effect × Outcome :=
  match w.get_transaction_by_hash with
  | .error e =>
    ([Effect.netGetTransactionByHash cfg.tx_hash],
     Outcome.err ⟨"Failed to fetch transaction", some e⟩)
  | .ok none =>
    ([Effect.netGetTransactionByHash cfg.tx_hash],
     Outcome.err ⟨"Transaction not found: " ++ toString cfg.tx_hash, none⟩)
  | .ok (some envl) =>
    match TxEnvelope.as_eip4844 envl with
    | none =>
      ([Effect.netGetTransactionByHash cfg.tx_hash],
       Outcome.err ⟨"Transaction is not an EIP-4844 blob transaction", none⟩)
    | some tx =>
      (Effect.netGetTransactionByHash cfg.tx_hash ::
         Effect.printFound (Eip4844Tx.toAcc tx) (Eip4844Tx.nonceAcc tx) ::
         (receiptStage w cfg own tx).1,
       (receiptStage w cfg own tx).2)

/-- `main.rs:38-42`: the connectivity smoke test (`get_block_number`). -/
def connectStage (w : World) (cfg : Config) (own : Address) :
    List Effect × Outcome :=
  match w.get_block_number with
  | .error e =>
    ([Effect.netGetBlockNumber],
     Outcome.err ⟨"Failed to connect to RPC endpoint", some e⟩)
  | .ok n =>
    (Effect.netGetBlockNumber :: Effect.printConnected n :: (fetchStage w cfg own).1,
     (fetchStage w cfg own).2)

/-- The whole program (`main.rs:17-129`): the `dotenv()` file read, the
configuration load, the signer and provider setup, then the network
pipeline. -/
def runMain (w : World) : List Effect × Outcome :=
  match loadConfig w with
  | .error e => ([Effect.fileRead dotenvPath], Outcome.err e)
  | .ok cfg =>
    match setupSigner w cfg with
    | .error e => ([Effect.fileRead dotenvPath], Outcome.err e)
    | .ok signer =>
      (Effect.fileRead dotenvPath :: (connectStage w cfg signer.address).1,
       (connectStage w cfg signer.address).2)

/-- A sample pending EIP-4844 transaction (the spec's happy-path scenario:
nonce 5, 10 gwei max fee, 1 gwei priority fee). -/
def sampleTx : Eip4844Tx :=
  { nonce := 5
    gas_limit := 100000
    max_fee_per_gas := 10000000000
    max_priority_fee_per_gas := 1000000000
    «to» := 900
    blob_versioned_hashes := [77]
    max_fee_per_blob_gas := 3000000000 }

/-- A 64-hex-digit hash string parsing to the hash value 1. -/
def sampleHashStr : String :=
  "0000000000000000000000000000000000000000000000000000000000000001"

/-- The configuration resolved from `sampleWorld`. -/
def sampleCfg : Config :=
  { rpc_url := "http://localhost:8545", private_key := "0xabc", tx_hash := 1 }

/-- The signer produced by `sampleWorld`'s key parser. -/
def sampleSigner : PrivateKeySigner := ⟨7⟩

/-- A happy-path oracle: all three variables set, parsers succeed, the node
answers every call, the target transaction is `sampleTx` and is still
pending. -/
def sampleWorld : World :=
  { env_rpc_url := some "http://localhost:8545"
    env_private_key := some "0xabc"
    env_tx_hash := some sampleHashStr
    parse_private_key := fun _ => some sampleSigner
    parse_url := fun _ => Except.ok ()
    get_block_number := Except.ok 100
    get_transaction_by_hash := Except.ok (some (TxEnvelope.eip4844 sampleTx))
    get_transaction_receipt := Except.ok none
    build_sidecar := Except.ok ()
    send_transaction := fun _ => Except.ok 4242 }

example : loadConfig sampleWorld = Except.ok sampleCfg := rfl
example : parseTxHash "not-a-hash" = none := by decide
example : (runMain sampleWorld).2 = Outcome.ok := by decide
example : countSends (runMain sampleWorld).1 = 1 := by decide

/-- C1 (counterexample): the fee recalculation is `u128` arithmetic, so at
the 256-bit-representable fee value `2 ^ 127` it does not produce exactly
twice the input. -/
theorem doubleFee_overflow_cex :
    ((doubleFee (2 ^ 127) == 2 * 2 ^ 127) = false) ∧ 2 ^ 127 < 2 ^ 256 := by
  decide

/-- C1 (amended): for both fee fields, the recalculation produces exactly
twice the original value for every fee below `2 ^ 127`, the largest range
the code's 128-bit fee arithmetic doubles without wrapping. -/
theorem doubleFee_exact_below_half (x : Nat) (h : x < 2 ^ 127) :
    doubleFee x = 2 * x := by
  have h2 : x * 2 < 2 ^ 128 := by
    have e : (2 : Nat) ^ 128 = 2 ^ 127 * 2 := by norm_num
    omega
  unfold doubleFee
  rw [Nat.mod_eq_of_lt h2, Nat.mul_comm]

/-- C1 witness: the recalculation doubles a 10-gwei fee exactly. -/
theorem doubleFee_exact_below_half_witness :
    10000000000 < 2 ^ 127 ∧ doubleFee 10000000000 = 2 * 10000000000 :=
  ⟨by norm_num, doubleFee_exact_below_half 10000000000 (by norm_num)⟩

/-- C5: when any of the three environment variables is absent, or TX_HASH
does not parse as a 32-byte hash, the run ends with the error naming that
variable (or the parse failure) and its whole trace is the `dotenv` file
probe — no network call is issued. -/
theorem env_missing_or_bad_hash_fails (w : World) :
    (w.env_rpc_url = none →
      runMain w = ([Effect.fileRead dotenvPath],
        Outcome.err ⟨"RPC_URL environment variable not set", none⟩)) ∧
    (∀ ru, w.env_rpc_url = some ru → w.env_private_key = none →
      runMain w = ([Effect.fileRead dotenvPath],
        Outcome.err ⟨"PRIVATE_KEY environment variable not set", none⟩)) ∧
    (∀ ru pk, w.env_rpc_url = some ru → w.env_private_key = some pk →
      w.env_tx_hash = none →
      runMain w = ([Effect.fileRead dotenvPath],
        Outcome.err ⟨"TX_HASH environment variable not set", none⟩)) ∧
    (∀ ru pk hs, w.env_rpc_url = some ru → w.env_private_key = some pk →
      w.env_tx_hash = some hs → parseTxHash hs = none →
      runMain w = ([Effect.fileRead dotenvPath],
        Outcome.err ⟨"Invalid transaction hash format", none⟩)) := by
  refine ⟨?_, ?_, ?_, ?_⟩ <;> intros <;> simp_all [runMain, loadConfig]

/-- A world with RPC_URL absent. -/
def wNoRpc : World := { sampleWorld with env_rpc_url := none }

/-- A world with the spec's "not-a-hash" TX_HASH. -/
def wBadHash : World := { sampleWorld with env_tx_hash := some "not-a-hash" }

/-- C5 witness: a run without RPC_URL and a run with TX_HASH = "not-a-hash"
both fail before any network call with the specific message. -/
theorem env_missing_or_bad_hash_fails_witness :
    runMain wNoRpc = ([Effect.fileRead dotenvPath],
      Outcome.err ⟨"RPC_URL environment variable not set", none⟩) ∧
    runMain wBadHash = ([Effect.fileRead dotenvPath],
      Outcome.err ⟨"Invalid transaction hash format", none⟩) :=
  ⟨(env_missing_or_bad_hash_fails wNoRpc).1 rfl,
   (env_missing_or_bad_hash_fails wBadHash).2.2.2 "http://localhost:8545" "0xabc"
     "not-a-hash" rfl rfl rfl (by decide)⟩

/-- C6: when the transaction lookup returns absence, the run fails with the
distinct "Transaction not found" error and no submission call ever
happens. -/
theorem tx_not_found_fails (w : World) (cfg : Config) (s : PrivateKeySigner)
    (n : Nat)
    (hc : loadConfig w = Except.ok cfg)
    (hs : setupSigner w cfg = Except.ok s)
    (hb : w.get_block_number = Except.ok n)
    (ht : w.get_transaction_by_hash = Except.ok none) :
    (runMain w).2 =
      Outcome.err ⟨"Transaction not found: " ++ toString cfg.tx_hash, none⟩ ∧
    countSends (runMain w).1 = 0 := by
  simp [runMain, hc, hs, connectStage, hb, fetchStage, ht, countSends,
    Effect.isSend]

/-- A world whose node does not know the target hash. -/
def wNotFound : World :=
  { sampleWorld with get_transaction_by_hash := Except.ok none }

/-- C6 witness: the not-found world fails with the not-found error and zero
submissions. -/
theorem tx_not_found_fails_witness :
    (runMain wNotFound).2 =
      Outcome.err ⟨"Transaction not found: " ++ toString sampleCfg.tx_hash, none⟩ ∧
    countSends (runMain wNotFound).1 = 0 :=
  tx_not_found_fails wNotFound sampleCfg sampleSigner 100 rfl rfl rfl rfl

/-- C4: when the fetched transaction is not of the EIP-4844 kind, the run
fails with the wrong-kind error and its network calls are exactly the
connectivity check and the transaction fetch already performed — no
receipt fetch, no submission. -/
theorem wrong_kind_halts (w : World) (cfg : Config) (s : PrivateKeySigner)
    (n : Nat) (envl : TxEnvelope)
    (hc : loadConfig w = Except.ok cfg)
    (hs : setupSigner w cfg = Except.ok s)
    (hb : w.get_block_number = Except.ok n)
    (ht : w.get_transaction_by_hash = Except.ok (some envl))
    (hk : TxEnvelope.as_eip4844 envl = none) :
    (runMain w).2 =
      Outcome.err ⟨"Transaction is not an EIP-4844 blob transaction", none⟩ ∧
    (runMain w).1.filter Effect.isNet =
      [Effect.netGetBlockNumber, Effect.netGetTransactionByHash cfg.tx_hash] := by
  simp [runMain, hc, hs, connectStage, hb, fetchStage, ht, hk, Effect.isNet]

/-- A world whose target transaction is a legacy (non-blob) transaction. -/
def wLegacy : World :=
  { sampleWorld with get_transaction_by_hash := Except.ok (some TxEnvelope.legacy) }

/-- C4 witness: the legacy-transaction world fails with the wrong-kind
error after exactly the two already-performed network calls. -/
theorem wrong_kind_halts_witness :
    (runMain wLegacy).2 =
      Outcome.err ⟨"Transaction is not an EIP-4844 blob transaction", none⟩ ∧
    (runMain wLegacy).1.filter Effect.isNet =
      [Effect.netGetBlockNumber, Effect.netGetTransactionByHash sampleCfg.tx_hash] :=
  wrong_kind_halts wLegacy sampleCfg sampleSigner 100 TxEnvelope.legacy
    rfl rfl rfl rfl rfl

/-- C2: for every original EIP-4844 transaction (any nonce, including 0),
the submitted replacement request has the original's nonce, the signer's
own address as recipient, value 0, gas limit 21000 and an empty
blob-versioned-hash list. -/
theorem replacement_tx_fields (w : World) (cfg : Config) (s : PrivateKeySigner)
    (n : Nat) (tx : Eip4844Tx)
    (hc : loadConfig w = Except.ok cfg)
    (hs : setupSigner w cfg = Except.ok s)
    (hb : w.get_block_number = Except.ok n)
    (ht : w.get_transaction_by_hash = Except.ok (some (TxEnvelope.eip4844 tx)))
    (hr : w.get_transaction_receipt = Except.ok none)
    (hsc : w.build_sidecar = Except.ok ()) :
    ∃ req, Effect.netSendTransaction req ∈ (runMain w).1 ∧
      req.nonce = some tx.nonce ∧
      req.«to» = some (TxKind.Call s.address) ∧
      req.value = some 0 ∧
      req.gas = some 21000 ∧
      req.blob_versioned_hashes = some ([] : List B256) := by
  refine ⟨replacementRequest s.address tx.nonce (doubleFee tx.max_fee_per_gas)
    (doubleFee tx.max_priority_fee_per_gas) ⟨placeholderPayload⟩,
    ?_, rfl, rfl, rfl, rfl, rfl⟩
  simp only [runMain, hc, hs, connectStage, hb, fetchStage, ht,
    TxEnvelope.as_eip4844, receiptStage, hr, feeAndSubmitStage,
    Eip4844Tx.maxPriorityFeePerGasAcc, Eip4844Tx.maxFeePerBlobGasAcc,
    Eip4844Tx.nonceAcc, Eip4844Tx.maxFeePerGasAcc, Eip4844Tx.gasLimitAcc,
    SidecarBuilder.build, SidecarBuilder.from_slice, hsc]
  split <;> simp

/-- A world whose pending blob transaction has nonce 0. -/
def wNonce0 : World :=
  { sampleWorld with get_transaction_by_hash := Except.ok (some (TxEnvelope.eip4844 { sampleTx with nonce := 0 })) }

/-- C2 witness: in the nonce-0 world a replacement with nonce 0, recipient
self, value 0, gas 21000 and no blob hashes is submitted. -/
theorem replacement_tx_fields_witness :
    ∃ req, Effect.netSendTransaction req ∈ (runMain wNonce0).1 ∧
      req.nonce = some 0 ∧
      req.«to» = some (TxKind.Call 7) ∧
      req.value = some 0 ∧
      req.gas = some 21000 ∧
      req.blob_versioned_hashes = some ([] : List B256) :=
  replacement_tx_fields wNonce0 sampleCfg sampleSigner 100
    { sampleTx with nonce := 0 } rfl rfl rfl rfl rfl rfl

/-- C3 (amended): with the target fetched as a pending-checkable EIP-4844
transaction, a present receipt means a successful exit with the receipt's
block number printed and no submission; an absent receipt means exactly
one submission when the sidecar builds, and none (with the construction
error) when it does not. -/
theorem submit_iff_receipt_absent (w : World) (cfg : Config)
    (s : PrivateKeySigner) (n : Nat) (tx : Eip4844Tx)
    (hc : loadConfig w = Except.ok cfg)
    (hs : setupSigner w cfg = Except.ok s)
    (hb : w.get_block_number = Except.ok n)
    (ht : w.get_transaction_by_hash = Except.ok (some (TxEnvelope.eip4844 tx))) :
    (∀ rec, w.get_transaction_receipt = Except.ok (some rec) →
      (runMain w).2 = Outcome.ok ∧
      countSends (runMain w).1 = 0 ∧
      Effect.printConfirmed (rec.block_number.getD 0) ∈ (runMain w).1) ∧
    (w.get_transaction_receipt = Except.ok none →
      w.build_sidecar = Except.ok () →
      countSends (runMain w).1 = 1) ∧
    (∀ e, w.get_transaction_receipt = Except.ok none →
      w.build_sidecar = Except.error e →
      countSends (runMain w).1 = 0 ∧
      (runMain w).2 = Outcome.err ⟨"Failed to build blob sidecar", some e⟩) := by
  refine ⟨?_, ?_, ?_⟩
  · intro rec hr
    simp [runMain, hc, hs, connectStage, hb, fetchStage, ht,
      TxEnvelope.as_eip4844, receiptStage, hr, countSends, Effect.isSend]
  · intro hr hsc
    simp only [runMain, hc, hs, connectStage, hb, fetchStage, ht,
      TxEnvelope.as_eip4844, receiptStage, hr, feeAndSubmitStage,
      Eip4844Tx.maxPriorityFeePerGasAcc, Eip4844Tx.maxFeePerBlobGasAcc,
      SidecarBuilder.build, SidecarBuilder.from_slice, hsc]
    split <;> simp [countSends, Effect.isSend]
  · intro e hr hsc
    simp [runMain, hc, hs, connectStage, hb, fetchStage, ht,
      TxEnvelope.as_eip4844, receiptStage, hr, feeAndSubmitStage,
      Eip4844Tx.maxPriorityFeePerGasAcc, Eip4844Tx.maxFeePerBlobGasAcc,
      SidecarBuilder.build, SidecarBuilder.from_slice, hsc, countSends,
      Effect.isSend]

/-- A world where the sidecar encoder fails although the transaction is
still pending. -/
def wSidecarErr : World :=
  { sampleWorld with build_sidecar := Except.error "encoding error" }

/-- C3 (counterexample): a run whose receipt lookup returns absence and
which nevertheless performs no submission, because the sidecar
construction fails first. -/
theorem receipt_absent_without_submission_cex :
    wSidecarErr.get_transaction_receipt = Except.ok none ∧
    countSends (runMain wSidecarErr).1 = 0 :=
  ⟨rfl, by decide⟩

/-- A world whose transaction is already mined, with receipt block 123. -/
def wMined : World :=
  { sampleWorld with get_transaction_receipt := Except.ok (some ⟨some 123⟩) }

/-- C3 witness: the mined world exits successfully printing block 123 with
no submission, and the pending happy-path world submits exactly once. -/
theorem submit_iff_receipt_absent_witness :
    ((runMain wMined).2 = Outcome.ok ∧
     countSends (runMain wMined).1 = 0 ∧
     Effect.printConfirmed 123 ∈ (runMain wMined).1) ∧
    countSends (runMain sampleWorld).1 = 1 :=
  ⟨(submit_iff_receipt_absent wMined sampleCfg sampleSigner 100 sampleTx
      rfl rfl rfl rfl).1 ⟨some 123⟩ rfl,
   (submit_iff_receipt_absent sampleWorld sampleCfg sampleSigner 100 sampleTx
      rfl rfl rfl rfl).2.1 rfl rfl⟩

/-- Every submission effect of the fee/submit stage carries exactly the
replacement request built from the signer's address, the original nonce,
the doubled fees and the placeholder sidecar. -/
theorem helper_fee_sends (w : World) (own : Address) (tx : Eip4844Tx)
    (req : TransactionRequest)
    (h : Effect.netSendTransaction req ∈ (feeAndSubmitStage w own tx).1) :
    req = replacementRequest own (Eip4844Tx.nonceAcc tx)
      (doubleFee (Eip4844Tx.maxFeePerGasAcc tx))
      (doubleFee tx.max_priority_fee_per_gas) ⟨placeholderPayload⟩ := by
  cases hb : w.build_sidecar with
  | error e =>
    simp only [feeAndSubmitStage, Eip4844Tx.maxPriorityFeePerGasAcc,
      Eip4844Tx.maxFeePerBlobGasAcc, SidecarBuilder.build,
      SidecarBuilder.from_slice, hb] at h
    simp at h
  | ok u =>
    simp only [feeAndSubmitStage, Eip4844Tx.maxPriorityFeePerGasAcc,
      Eip4844Tx.maxFeePerBlobGasAcc, SidecarBuilder.build,
      SidecarBuilder.from_slice, hb] at h
    split at h <;> simp_all

/-- Lift of `helper_fee_sends` over the receipt stage. -/
theorem helper_receipt_sends (w : World) (cfg : Config) (own : Address)
    (tx : Eip4844Tx) (req : TransactionRequest)
    (h : Effect.netSendTransaction req ∈ (receiptStage w cfg own tx).1) :
    req = replacementRequest own (Eip4844Tx.nonceAcc tx)
      (doubleFee (Eip4844Tx.maxFeePerGasAcc tx))
      (doubleFee tx.max_priority_fee_per_gas) ⟨placeholderPayload⟩ := by
  unfold receiptStage at h
  split at h
  · simp at h
  · simp at h
  · simp only [List.mem_cons, reduceCtorEq, false_or] at h
    exact helper_fee_sends w own tx req h

/-- Lift of `helper_fee_sends` over the whole run: any submitted request is
the replacement request for some address and original transaction. -/
theorem helper_main_sends (w : World) (req : TransactionRequest)
    (h : Effect.netSendTransaction req ∈ (runMain w).1) :
    ∃ own tx, req = replacementRequest own (Eip4844Tx.nonceAcc tx)
      (doubleFee (Eip4844Tx.maxFeePerGasAcc tx))
      (doubleFee tx.max_priority_fee_per_gas) ⟨placeholderPayload⟩ := by
  unfold runMain at h
  split at h
  · simp at h
  · split at h
    · simp at h
    · simp only [List.mem_cons, reduceCtorEq, false_or] at h
      unfold connectStage at h
      split at h
      · simp at h
      · simp only [List.mem_cons, reduceCtorEq, false_or] at h
        unfold fetchStage at h
        split at h
        · simp at h
        · simp at h
        · split at h
          · simp at h
          · simp only [List.mem_cons, reduceCtorEq, false_or] at h
            exact ⟨_, _, helper_receipt_sends _ _ _ _ _ h⟩

/-- C9: the sidecar attached to every submitted replacement is built from
the fixed non-empty placeholder payload (never from the original blobs);
when the sidecar build fails the run reports the construction error —
distinct from the submission error message — and performs no
submission. -/
theorem sidecar_placeholder_and_distinct_errors (w : World) (own : Address)
    (tx : Eip4844Tx) :
    placeholderPayload ≠ "" ∧
    (∀ req, Effect.netSendTransaction req ∈ (feeAndSubmitStage w own tx).1 →
      req.sidecar = some ⟨placeholderPayload⟩) ∧
    (∀ e, w.build_sidecar = Except.error e →
      (feeAndSubmitStage w own tx).2 =
        Outcome.err ⟨"Failed to build blob sidecar", some e⟩ ∧
      countSends (feeAndSubmitStage w own tx).1 = 0) ∧
    ("Failed to build blob sidecar" : String) ≠
      "Failed to send replacement transaction" := by
  refine ⟨by decide, fun req h => ?_, fun e hsc => ?_, by decide⟩
  · rw [helper_fee_sends w own tx req h]
    rfl
  · constructor <;>
      simp [feeAndSubmitStage, Eip4844Tx.maxPriorityFeePerGasAcc,
        Eip4844Tx.maxFeePerBlobGasAcc, SidecarBuilder.build,
        SidecarBuilder.from_slice, hsc, countSends, Effect.isSend]

/-- C9 witness: in the failing-encoder world the stage reports the distinct
construction error and submits nothing. -/
theorem sidecar_placeholder_and_distinct_errors_witness :
    (feeAndSubmitStage wSidecarErr 7 sampleTx).2 =
      Outcome.err ⟨"Failed to build blob sidecar", some "encoding error"⟩ ∧
    countSends (feeAndSubmitStage wSidecarErr 7 sampleTx).1 = 0 :=
  (sidecar_placeholder_and_distinct_errors wSidecarErr 7 sampleTx).2.2.1
    "encoding error" rfl

/-- C10: the replacement request leaves `max_fee_per_blob_gas` unset, both
in the builder itself and in every request the program ever submits. -/
theorem blob_fee_not_copied :
    (∀ own nonce f p sc,
      (replacementRequest own nonce f p sc).max_fee_per_blob_gas = none) ∧
    (∀ w req, Effect.netSendTransaction req ∈ (runMain w).1 →
      req.max_fee_per_blob_gas = none) := by
  refine ⟨fun own nonce f p sc => rfl, fun w req h => ?_⟩
  obtain ⟨own, tx, hreq⟩ := helper_main_sends w req h
  subst hreq
  rfl

/-- The request submitted in the happy-path sample world. -/
def sampleReq : TransactionRequest :=
  replacementRequest 7 5 20000000000 2000000000 ⟨placeholderPayload⟩

/-- C10 witness: the request actually submitted in the sample world has no
`max_fee_per_blob_gas`. -/
theorem blob_fee_not_copied_witness : sampleReq.max_fee_per_blob_gas = none :=
  blob_fee_not_copied.2 sampleWorld sampleReq (by decide)

/-- The fee/submit stage touches no file. -/
theorem helper_file_fee (w : World) (own : Address) (tx : Eip4844Tx) :
    (feeAndSubmitStage w own tx).1.filter Effect.isFile = [] := by
  simp only [feeAndSubmitStage, Eip4844Tx.maxPriorityFeePerGasAcc,
    Eip4844Tx.maxFeePerBlobGasAcc, SidecarBuilder.build,
    SidecarBuilder.from_slice]
  split
  · simp [Effect.isFile]
  · split <;> simp [Effect.isFile]

/-- The receipt stage touches no file. -/
theorem helper_file_receipt (w : World) (cfg : Config) (own : Address)
    (tx : Eip4844Tx) :
    (receiptStage w cfg own tx).1.filter Effect.isFile = [] := by
  unfold receiptStage
  split
  · simp [Effect.isFile]
  · simp [Effect.isFile]
  · simp [Effect.isFile, helper_file_fee]

/-- The fetch stage touches no file. -/
theorem helper_file_fetch (w : World) (cfg : Config) (own : Address) :
    (fetchStage w cfg own).1.filter Effect.isFile = [] := by
  unfold fetchStage
  split
  · simp [Effect.isFile]
  · simp [Effect.isFile]
  · split
    · simp [Effect.isFile]
    · simp [Effect.isFile, helper_file_receipt]

/-- The connectivity stage touches no file. -/
theorem helper_file_connect (w : World) (cfg : Config) (own : Address) :
    (connectStage w cfg own).1.filter Effect.isFile = [] := by
  unfold connectStage
  split
  · simp [Effect.isFile]
  · simp [Effect.isFile, helper_file_fetch]

/-- C7 (amended): in every run the program's only file access is the
startup read of the optional `.env` dotenv file; it never writes a file —
everything else comes from the process environment and the remote node. -/
theorem only_dotenv_file_access (w : World) :
    (runMain w).1.filter Effect.isFile = [Effect.fileRead dotenvPath] := by
  unfold runMain
  split
  · simp [Effect.isFile]
  · split
    · simp [Effect.isFile]
    · simp [Effect.isFile, helper_file_connect]

/-- C7 (counterexample): the claim that no file is read fails — already in
the happy-path world the trace contains the `dotenv` read of `.env`. -/
theorem no_file_access_claim_cex :
    Effect.fileRead dotenvPath ∈ (runMain sampleWorld).1 := by decide

/-- The fee/submit stage never panics. -/
theorem helper_panic_fee (w : World) (own : Address) (tx : Eip4844Tx) :
    Outcome.isPanic (feeAndSubmitStage w own tx).2 = false := by
  simp only [feeAndSubmitStage, Eip4844Tx.maxPriorityFeePerGasAcc,
    Eip4844Tx.maxFeePerBlobGasAcc, SidecarBuilder.build,
    SidecarBuilder.from_slice]
  split
  · rfl
  · split <;> rfl

/-- The receipt stage never panics. -/
theorem helper_panic_receipt (w : World) (cfg : Config) (own : Address)
    (tx : Eip4844Tx) :
    Outcome.isPanic (receiptStage w cfg own tx).2 = false := by
  unfold receiptStage
  split
  · rfl
  · rfl
  · apply helper_panic_fee

/-- The fetch stage never panics. -/
theorem helper_panic_fetch (w : World) (cfg : Config) (own : Address) :
    Outcome.isPanic (fetchStage w cfg own).2 = false := by
  unfold fetchStage
  split
  · rfl
  · rfl
  · split
    · rfl
    · apply helper_panic_receipt

/-- The connectivity stage never panics. -/
theorem helper_panic_connect (w : World) (cfg : Config) (own : Address) :
    Outcome.isPanic (connectStage w cfg own).2 = false := by
  unfold connectStage
  split
  · rfl
  · apply helper_panic_fetch

/-- The whole run never panics. -/
theorem helper_panic_main (w : World) :
    Outcome.isPanic (runMain w).2 = false := by
  unfold runMain
  split
  · rfl
  · split
    · rfl
    · apply helper_panic_connect

/-- C8: on an EIP-4844 transaction the priority-fee and blob-fee accessors
always return a present value, and consequently no run of the program ever
reaches the panicking `unwrap` branches. -/
theorem fee_accessors_total_no_panic :
    (∀ tx : Eip4844Tx,
      Eip4844Tx.maxPriorityFeePerGasAcc tx = some tx.max_priority_fee_per_gas ∧
      Eip4844Tx.maxFeePerBlobGasAcc tx = some tx.max_fee_per_blob_gas) ∧
    (∀ w : World, Outcome.isPanic (runMain w).2 = false) :=
  ⟨fun _tx => ⟨rfl, rfl⟩, fun w => helper_panic_main w⟩
